import Mathlib

/-!
# Reconciliation pass of the vSphere provisioner (`govmomi/update.go`)

A shallow embedding of `Provisioner.Update` and `Provisioner.updateIP`.

* Go pointers to API objects are modelled by the objects themselves, held in
  the `World` (`World.machine`, `World.cluster` are the objects behind the two
  pointer arguments); `DeepCopy` yields an independent value.
* Go `error` is `Option GoError`, `nil` being `none`; a `(T, error)` result is
  `Except GoError T`.
* Every outbound call made by the two functions is appended to `World.trace`,
  in program order.
* The external collaborators (session provider, hypervisor, control-plane
  store, JSON encoder, clock) answer through the fields of `Env`; the theorems
  quantify over every `Env`.
-/

namespace Govmomi

/-! ## Data model -/

/-- Go `error` value: an error carries its message, `nil` is `none`. -/
structure GoError where
  msg : String
deriving DecidableEq, Repr

/-- Go `map[string]string` (non-nil): the first entry for a key is its value. -/
abbrev GoMap := List (String × String)

/-- Map read `m[k]` with the comma-ok idiom. -/
def GoMap.get : GoMap → String → Option String
  | [], _ => none
  | (k', v') :: rest, k => if k' = k then some v' else GoMap.get rest k

/-- Map assignment `m[k] = v`. -/
def GoMap.set : GoMap → String → String → GoMap
  | [], k, v => [(k, v)]
  | (k', v') :: rest, k, v =>
    if k' = k then (k, v) :: rest else (k', v') :: GoMap.set rest k v

/-- Read of a possibly nil map: a nil map has no keys. -/
def annotationsGet (a : Option GoMap) (k : String) : Option String :=
  match a with
  | none => none
  | some m => m.get k

/-- The fields of `metav1.TypeMeta`. -/
structure TypeMeta where
  Kind : String
  APIVersion : String
deriving DecidableEq, Repr

/-- The fields of `metav1.ObjectMeta` that identify and decorate an object.
`Labels` and `Annotations` are Go maps and may be nil (`none`). -/
structure ObjectMeta where
  Name : String
  Namespace : String
  ResourceVersion : String
  Labels : Option GoMap
  Annotations : Option GoMap
deriving DecidableEq, Repr

/-- The type `clusterv1.Machine`; `Spec` and `Status` are carried as payloads. -/
structure Machine where
  TypeMeta : TypeMeta
  ObjectMeta : ObjectMeta
  Spec : String
  Status : String
deriving DecidableEq, Repr

/-- The type `runtime.RawExtension`. -/
structure RawExtension where
  Raw : String
deriving DecidableEq, Repr

/-- The type `clusterv1.ClusterStatus`; `ProviderStatus` is a pointer and may be nil. -/
structure ClusterStatus where
  ErrorMessage : String
  ProviderStatus : Option RawExtension
deriving DecidableEq, Repr

/-- The type `clusterv1.Cluster`; `Spec` is carried as a payload. -/
structure Cluster where
  TypeMeta : TypeMeta
  ObjectMeta : ObjectMeta
  Spec : String
  Status : ClusterStatus
deriving DecidableEq, Repr

/-- The type `types.ManagedObjectReference`; its field `Type` is written `Type_`. -/
structure ManagedObjectReference where
  Type_ : String
  Value : String
deriving DecidableEq, Repr

/-- The type `types.VirtualMachineRuntimeInfo`, the power state only.
`types.VirtualMachinePowerState` is a Go string type. -/
structure VirtualMachineRuntimeInfo where
  PowerState : String
deriving DecidableEq, Repr

/-- The type `mo.VirtualMachine`, restricted to the properties requested. -/
structure VirtualMachine where
  Name : String
  Runtime : VirtualMachineRuntimeInfo
deriving DecidableEq, Repr

/-- The constant `types.VirtualMachinePowerStatePoweredOn`. -/
def VirtualMachinePowerStatePoweredOn : String := "poweredOn"

/-- The constant `types.VirtualMachinePowerStatePoweredOff`. -/
def VirtualMachinePowerStatePoweredOff : String := "poweredOff"

/-- The constant `types.VirtualMachinePowerStateSuspended`. -/
def VirtualMachinePowerStateSuspended : String := "suspended"

/-- The type `vsphereconfig.VsphereClusterProviderStatus`. -/
structure VsphereClusterProviderStatus where
  LastUpdated : String
deriving DecidableEq, Repr

/-- The session handle returned by `sessionFromProviderConfig`. -/
structure SessionContext where
  handle : Nat
deriving DecidableEq, Repr

/-- Key of an object in the control-plane store: namespace and name. -/
abbrev StoreKey := String × String

/-! ## Outbound calls and the world -/

/-- One outbound call issued by `Update` or `updateIP`, with its arguments.
`Warningf` carries the formatted text of the `glog` warning.  `Eventf` carries
the object, the event type (`corev1.EventTypeNormal` is `"Normal"`), the
reason, the message format and its first argument `vmIP`; the second argument
is the method value `vm.Name`, which has no printable content. -/
inductive Call where
  | RetrieveOne (vmref : ManagedObjectReference) (props : List String)
  | Warningf (msg : String)
  | WaitForIP (vmref : ManagedObjectReference)
  | Eventf (machine : Machine) (eventtype reason messageFmt vmIP : String)
  | MachinesUpdate (ns : String) (nmachine : Machine)
  | ClustersUpdateStatus (ns : String) (ncluster : Cluster)
deriving DecidableEq, Repr

/-- Is the call `vm.WaitForIP`? -/
def Call.isWaitForIP : Call → Bool
  | .WaitForIP _ => true
  | _ => false

/-- Is the call `Machines(ns).Update`? -/
def Call.isMachinesUpdate : Call → Bool
  | .MachinesUpdate _ _ => true
  | _ => false

/-- Is the call `Clusters(ns).UpdateStatus`? -/
def Call.isClustersUpdateStatus : Call → Bool
  | .ClustersUpdateStatus _ _ => true
  | _ => false

/-- Is the call `eventRecorder.Eventf`? -/
def Call.isEventf : Call → Bool
  | .Eventf _ _ _ _ _ => true
  | _ => false

/-- Is the call a write to the control-plane store? -/
def Call.isStoreWrite (c : Call) : Bool :=
  c.isMachinesUpdate || c.isClustersUpdateStatus

/-- The state a pass runs in: the two objects behind the pointer arguments,
the contents of the control-plane store, and the calls issued so far. -/
structure World where
  cluster : Cluster
  machine : Machine
  machines : List (StoreKey × Machine)
  clusters : List (StoreKey × Cluster)
  trace : List Call
deriving DecidableEq, Repr

/-- Record an outbound call. -/
def World.emit (w : World) (c : Call) : World :=
  { w with trace := w.trace ++ [c] }

/-- The calls issued between world `w` and the later world `w2`. -/
def issued (w w2 : World) : List Call :=
  w2.trace.drop w.trace.length

/-- Store read: the Machine stored under a namespace and name. -/
def readMachine (store : List (StoreKey × Machine)) (ns name : String) : Option Machine :=
  match store with
  | [] => none
  | (k, m) :: rest => if k = (ns, name) then some m else readMachine rest ns name

/-- Store effect of an accepted `Machines(ns).Update(nm)`: full-object replace
of the Machine stored under `ns` and the name of `nm`. -/
def replaceMachine (store : List (StoreKey × Machine)) (ns : String) (nm : Machine) :
    List (StoreKey × Machine) :=
  ((ns, nm.ObjectMeta.Name), nm) :: store.filter (fun e => decide (e.1 ≠ (ns, nm.ObjectMeta.Name)))

/-- Store effect of an accepted `Clusters(ns).UpdateStatus(nc)`: the status
subresource of the Cluster stored under `ns` and the name of `nc` is replaced. -/
def replaceClusterStatus (store : List (StoreKey × Cluster)) (ns : String) (nc : Cluster) :
    List (StoreKey × Cluster) :=
  store.map (fun e =>
    if e.1 = (ns, nc.ObjectMeta.Name) then (e.1, { e.2 with Status := nc.Status }) else e)

/-- The answers of the external collaborators, and the one constant of the
`constants` package the code reads.  The store verdicts are `none` when the
submission is accepted and `some err` when it is rejected. -/
structure Env where
  VmIpAnnotationKey : String
  sessionFromProviderConfig : Cluster → Machine → Except GoError SessionContext
  GetVMId : Machine → Except GoError String
  RetrieveOne : SessionContext → ManagedObjectReference → List String →
    Except GoError VirtualMachine
  WaitForIP : SessionContext → ManagedObjectReference → Except GoError String
  MachinesUpdate : List (StoreKey × Machine) → String → Machine → Option GoError
  Now : String
  Marshal : VsphereClusterProviderStatus → String × Option GoError
  ClustersUpdateStatus : List (StoreKey × Cluster) → String → Cluster → Option GoError

/-! ## The program -/

/-- Modelled from the spec: `vsphereutils.GetIP` is not among the source files.
The spec has the address recorded on the Machine as the annotation under the
well-known key, and the address check succeed exactly when the Machine carries
that annotation. -/
def GetIP (key : String) (_cluster : Cluster) (machine : Machine) : Except GoError String :=
  match annotationsGet machine.ObjectMeta.Annotations key with
  | some ip => .ok ip
  | none => .error ⟨"could not get IP"⟩

/-- The text produced by the format
`"Machine %s is not running, rather it is in %s state"`. -/
def notRunningMsg (name powerState : String) : String :=
  "Machine " ++ name ++ " is not running, rather it is in " ++ powerState ++ " state"

/-- The local `nmachine` of `updateIP` when it is submitted (update.go, lines
64-68): a deep copy of the Machine whose annotation map, created when nil,
has the address stored under the well-known key. -/
def updateIP_nmachine (key : String) (machine : Machine) (vmIP : String) : Machine :=
  -- nmachine := machine.DeepCopy()
  let nmachine := machine
  -- if nmachine.ObjectMeta.Annotations == nil { ... = make(map[string]string) }
  let annotations : GoMap :=
    match nmachine.ObjectMeta.Annotations with
    | none => []
    | some m => m
  -- nmachine.ObjectMeta.Annotations[constants.VmIpAnnotationKey] = vmIP
  { nmachine with
    ObjectMeta := { nmachine.ObjectMeta with Annotations := some (annotations.set key vmIP) } }

/-- The local `ncluster` of `updateIP` when it is submitted (update.go, lines
76-77): a deep copy of the Cluster whose provider status holds `out`. -/
def updateIP_ncluster (cluster : Cluster) (out : String) : Cluster :=
  -- ncluster := cluster.DeepCopy()
  let ncluster := cluster
  -- ncluster.Status.ProviderStatus = &runtime.RawExtension{Raw: out}
  { ncluster with Status := { ncluster.Status with ProviderStatus := some { Raw := out } } }

/-- The method `Provisioner.updateIP` (update.go, lines 63-80).  It returns the
Go `error` and the world after the call. -/
def updateIP (env : Env) (w : World) (vmIP : String) : Option GoError × World :=
  let nmachine := updateIP_nmachine env.VmIpAnnotationKey w.machine vmIP
  -- _, err := vc.clusterV1alpha1.Machines(nmachine.Namespace).Update(nmachine)
  let w1 := w.emit (.MachinesUpdate nmachine.ObjectMeta.Namespace nmachine)
  match env.MachinesUpdate w1.machines nmachine.ObjectMeta.Namespace nmachine with
  | some err =>
    -- if err != nil { return err }
    (some err, w1)
  | none =>
    let w2 : World :=
      { w1 with machines := replaceMachine w1.machines nmachine.ObjectMeta.Namespace nmachine }
    -- status := &VsphereClusterProviderStatus{LastUpdated: time.Now().UTC().String()}
    let status : VsphereClusterProviderStatus := { LastUpdated := env.Now }
    -- out, err := json.Marshal(status)        (this err is overwritten on line 78)
    let out := (env.Marshal status).1
    let ncluster := updateIP_ncluster w2.cluster out
    -- _, err = vc.clusterV1alpha1.Clusters(ncluster.Namespace).UpdateStatus(ncluster)
    let w3 := w2.emit (.ClustersUpdateStatus ncluster.ObjectMeta.Namespace ncluster)
    -- return err
    match env.ClustersUpdateStatus w3.clusters ncluster.ObjectMeta.Namespace ncluster with
    | some err => (some err, w3)
    | none =>
      (none,
        { w3 with
          clusters := replaceClusterStatus w3.clusters ncluster.ObjectMeta.Namespace ncluster })

/-- The object reference built by `Update` (update.go, lines 37-40). -/
def Update_vmref (moref : String) : ManagedObjectReference :=
  { Type_ := "VirtualMachine", Value := moref }

/-- The method `Provisioner.Update` (update.go, lines 21-60): one reconciliation
pass.  It returns the Go `error` and the world after the pass.  The derived
context and its deferred `cancel` have no effect on the result and are left out. -/
def Update (env : Env) (w : World) : Option GoError × World :=
  -- s, err := vc.sessionFromProviderConfig(cluster, machine)
  match env.sessionFromProviderConfig w.cluster w.machine with
  | .error err => (some err, w)
  | .ok s =>
    -- moref, err := vsphereutils.GetVMId(machine)
    match env.GetVMId w.machine with
    | .error err => (some err, w)
    | .ok moref =>
      let vmref := Update_vmref moref
      -- err = s.session.RetrieveOne(ctx, vmref, []string{"name", "runtime"}, &vmmo)
      let w1 := w.emit (.RetrieveOne vmref ["name", "runtime"])
      match env.RetrieveOne s vmref ["name", "runtime"] with
      | .error _ =>
        -- if err != nil { return nil }
        (none, w1)
      | .ok vmmo =>
        if vmmo.Runtime.PowerState ≠ VirtualMachinePowerStatePoweredOn then
          -- glog.Warningf(...); return fmt.Errorf(...)
          let w2 := w1.emit (.Warningf (notRunningMsg vmmo.Name vmmo.Runtime.PowerState))
          (some ⟨notRunningMsg vmmo.Name vmmo.Runtime.PowerState⟩, w2)
        else
          -- if _, err := vsphereutils.GetIP(cluster, machine); err != nil {
          match GetIP env.VmIpAnnotationKey w1.cluster w1.machine with
          | .error _ =>
            -- vmIP, err := vm.WaitForIP(ctx)
            let w2 := w1.emit (.WaitForIP vmref)
            match env.WaitForIP s vmref with
            | .error err => (some err, w2)
            | .ok vmIP =>
              -- vc.eventRecorder.Eventf(machine, corev1.EventTypeNormal, "IP Detcted", ...)
              let w3 := w2.emit
                (.Eventf w2.machine "Normal" "IP Detcted"
                  "IP %s detected for Virtual Machine %s" vmIP)
              -- return vc.updateIP(cluster, machine, vmIP)
              updateIP env w3 vmIP
          | .ok _ =>
            -- return nil
            (none, w1)

/-! ## Concrete inputs -/

/-- A Machine without annotations. -/
def exMachine : Machine :=
  { TypeMeta := { Kind := "Machine", APIVersion := "cluster.k8s.io/v1alpha1" }
    ObjectMeta :=
      { Name := "node-1", Namespace := "default", ResourceVersion := "7"
        Labels := some [("set", "node")], Annotations := none }
    Spec := "spec", Status := "status" }

/-- A Machine that already carries an address and one more annotation. -/
def exMachineWithIP : Machine :=
  { exMachine with
    ObjectMeta :=
      { exMachine.ObjectMeta with
        Annotations := some [("owner", "ops"), ("vm-ip-address", "10.0.0.9")] } }

/-- A Cluster without provider status. -/
def exCluster : Cluster :=
  { TypeMeta := { Kind := "Cluster", APIVersion := "cluster.k8s.io/v1alpha1" }
    ObjectMeta :=
      { Name := "c1", Namespace := "default", ResourceVersion := "3"
        Labels := none, Annotations := none }
    Spec := "spec"
    Status := { ErrorMessage := "", ProviderStatus := none } }

/-- A world whose store holds the Machine and the Cluster; no call issued yet. -/
def exWorld : World :=
  { cluster := exCluster, machine := exMachine
    machines := [(("default", "node-1"), exMachine)]
    clusters := [(("default", "c1"), exCluster)]
    trace := [] }

/-- The same world for the Machine that already carries an address. -/
def exWorldWithIP : World :=
  { exWorld with
    machine := exMachineWithIP
    machines := [(("default", "node-1"), exMachineWithIP)] }

/-- Every collaborator succeeds: the VM is powered on and reports `10.0.0.5`. -/
def exEnv : Env :=
  { VmIpAnnotationKey := "vm-ip-address"
    sessionFromProviderConfig := fun _ _ => .ok { handle := 1 }
    GetVMId := fun _ => .ok "vm-42"
    RetrieveOne := fun _ _ _ => .ok { Name := "node-1-vm", Runtime := { PowerState := "poweredOn" } }
    WaitForIP := fun _ _ => .ok "10.0.0.5"
    MachinesUpdate := fun _ _ _ => none
    Now := "2018-09-01 10:00:00 +0000 UTC"
    Marshal := fun st => ("\x7b\"LastUpdated\":\"" ++ st.LastUpdated ++ "\"\x7d", none)
    ClustersUpdateStatus := fun _ _ _ => none }

/-- The hypervisor reports the VM as suspended. -/
def exEnvSuspended : Env :=
  { exEnv with
    RetrieveOne := fun _ _ _ =>
      .ok { Name := "node-1-vm", Runtime := { PowerState := "suspended" } } }

/-- The read of the VM properties fails. -/
def exEnvRetrieveFails : Env :=
  { exEnv with RetrieveOne := fun _ _ _ => .error { msg := "connection refused" } }

/-- The wait for the address is cancelled. -/
def exEnvWaitFails : Env :=
  { exEnv with WaitForIP := fun _ _ => .error { msg := "context canceled" } }

/-- The store rejects the Machine submission. -/
def exEnvMachineRejected : Env :=
  { exEnv with MachinesUpdate := fun _ _ _ => some { msg := "conflict" } }

/-- The store accepts the Machine and rejects the Cluster status. -/
def exEnvClusterRejected : Env :=
  { exEnv with ClustersUpdateStatus := fun _ _ _ => some { msg := "conflict" } }

/-! ## Shared lemmas -/

/-- The not-running message contains both the VM name and the power state. -/
theorem notRunningMsg_names (name powerState : String) :
    List.IsInfix name.data (notRunningMsg name powerState).data ∧
    List.IsInfix powerState.data (notRunningMsg name powerState).data := by
  constructor
  · refine ⟨"Machine ".data,
      (" is not running, rather it is in " ++ powerState ++ " state").data, ?_⟩
    simp [notRunningMsg, String.data_append]
  · refine ⟨("Machine " ++ name ++ " is not running, rather it is in ").data,
      " state".data, ?_⟩
    simp [notRunningMsg, String.data_append]

/-- Reading a key right after assigning it yields the assigned value. -/
theorem GoMap.get_set_self (m : GoMap) (k v : String) : (m.set k v).get k = some v := by
  induction m with
  | nil => simp [GoMap.set, GoMap.get]
  | cons e rest ih =>
    obtain ⟨k', v'⟩ := e
    by_cases h : k' = k
    · simp [GoMap.set, GoMap.get, h]
    · simp [GoMap.set, GoMap.get, h, ih]

/-- Assigning a key leaves every other key as it was. -/
theorem GoMap.get_set_other (m : GoMap) (k v k2 : String) (hne : k2 ≠ k) :
    (m.set k v).get k2 = m.get k2 := by
  induction m with
  | nil => simp [GoMap.set, GoMap.get, Ne.symm hne]
  | cons e rest ih =>
    obtain ⟨k', v'⟩ := e
    by_cases h : k' = k
    · subst h
      simp [GoMap.set, GoMap.get, Ne.symm hne]
    · by_cases h2 : k' = k2
      · subst h2
        simp [GoMap.set, GoMap.get, h]
      · simp [GoMap.set, GoMap.get, h, h2, ih]

/-- A read of the store right after an accepted replace yields the object. -/
theorem readMachine_replaceMachine (store : List (StoreKey × Machine)) (ns : String)
    (nm : Machine) :
    readMachine (replaceMachine store ns nm) ns nm.ObjectMeta.Name = some nm := by
  simp [replaceMachine, readMachine]

/-- The address check fails exactly when the Machine lacks the annotation. -/
theorem GetIP_error_iff (key : String) (cluster : Cluster) (machine : Machine) :
    (∃ e, GetIP key cluster machine = .error e) ↔
      annotationsGet machine.ObjectMeta.Annotations key = none := by
  unfold GetIP
  cases h : annotationsGet machine.ObjectMeta.Annotations key <;> simp

/-- The address check succeeds exactly when the Machine carries the annotation,
and then yields the annotation value. -/
theorem GetIP_ok_iff (key : String) (cluster : Cluster) (machine : Machine) (ip : String) :
    GetIP key cluster machine = .ok ip ↔
      annotationsGet machine.ObjectMeta.Annotations key = some ip := by
  unfold GetIP
  cases h : annotationsGet machine.ObjectMeta.Annotations key <;> simp

/-! ## Claims -/

/-- C1: when the session and the VM id are obtained and `RetrieveOne` succeeds
with a power state other than PoweredOn, `Update` returns the not-running
error, whose message contains the VM name and the power state, and the pass
issues no `WaitForIP`, no Machine `Update` and no Cluster `UpdateStatus`; the
store is left as it was. -/
theorem Update_not_running (env : Env) (w : World) (s : SessionContext) (moref : String)
    (vmmo : VirtualMachine)
    (hs : env.sessionFromProviderConfig w.cluster w.machine = .ok s)
    (hid : env.GetVMId w.machine = .ok moref)
    (hr : env.RetrieveOne s (Update_vmref moref) ["name", "runtime"] = .ok vmmo)
    (hp : vmmo.Runtime.PowerState ≠ VirtualMachinePowerStatePoweredOn) :
    (Update env w).1 = some ⟨notRunningMsg vmmo.Name vmmo.Runtime.PowerState⟩ ∧
    List.IsInfix vmmo.Name.data (notRunningMsg vmmo.Name vmmo.Runtime.PowerState).data ∧
    List.IsInfix vmmo.Runtime.PowerState.data
      (notRunningMsg vmmo.Name vmmo.Runtime.PowerState).data ∧
    (issued w (Update env w).2).countP Call.isWaitForIP = 0 ∧
    (issued w (Update env w).2).countP Call.isMachinesUpdate = 0 ∧
    (issued w (Update env w).2).countP Call.isClustersUpdateStatus = 0 ∧
    (Update env w).2.machines = w.machines ∧
    (Update env w).2.clusters = w.clusters := by
  have hn := notRunningMsg_names vmmo.Name vmmo.Runtime.PowerState
  refine ⟨?_, hn.1, hn.2, ?_⟩
  · unfold Update
    simp only [hs, hid, hr]
    simp [hp]
  · unfold Update
    simp only [hs, hid, hr]
    simp [hp, issued, World.emit, Call.isWaitForIP, Call.isMachinesUpdate,
      Call.isClustersUpdateStatus]

/-- Witness of C1: a suspended VM. -/
theorem Update_not_running_witness :
    (Update exEnvSuspended exWorld).1 =
      some ⟨notRunningMsg "node-1-vm" "suspended"⟩ ∧
    List.IsInfix "node-1-vm".data (notRunningMsg "node-1-vm" "suspended").data ∧
    List.IsInfix "suspended".data (notRunningMsg "node-1-vm" "suspended").data ∧
    (issued exWorld (Update exEnvSuspended exWorld).2).countP Call.isWaitForIP = 0 ∧
    (issued exWorld (Update exEnvSuspended exWorld).2).countP Call.isMachinesUpdate = 0 ∧
    (issued exWorld (Update exEnvSuspended exWorld).2).countP Call.isClustersUpdateStatus = 0 ∧
    (Update exEnvSuspended exWorld).2.machines = exWorld.machines ∧
    (Update exEnvSuspended exWorld).2.clusters = exWorld.clusters :=
  Update_not_running exEnvSuspended exWorld { handle := 1 } "vm-42"
    { Name := "node-1-vm", Runtime := { PowerState := "suspended" } } rfl rfl rfl (by decide)

/-- C2: a pass that reaches the address check on a Machine for which `GetIP`
fails issues exactly one `WaitForIP` call; when that wait succeeds and the
store accepts both submissions, the store writes of the pass are one Machine
`Update` followed by one Cluster `UpdateStatus`, and `Update` returns nil. -/
theorem Update_missing_address (env : Env) (w : World) (s : SessionContext) (moref : String)
    (vmmo : VirtualMachine) (e : GoError)
    (hs : env.sessionFromProviderConfig w.cluster w.machine = .ok s)
    (hid : env.GetVMId w.machine = .ok moref)
    (hr : env.RetrieveOne s (Update_vmref moref) ["name", "runtime"] = .ok vmmo)
    (hp : vmmo.Runtime.PowerState = VirtualMachinePowerStatePoweredOn)
    (hg : GetIP env.VmIpAnnotationKey w.cluster w.machine = .error e) :
    (issued w (Update env w).2).countP Call.isWaitForIP = 1 ∧
    ∀ vmIP : String,
      env.WaitForIP s (Update_vmref moref) = .ok vmIP →
      env.MachinesUpdate w.machines
        (updateIP_nmachine env.VmIpAnnotationKey w.machine vmIP).ObjectMeta.Namespace
        (updateIP_nmachine env.VmIpAnnotationKey w.machine vmIP) = none →
      env.ClustersUpdateStatus w.clusters
        (updateIP_ncluster w.cluster (env.Marshal { LastUpdated := env.Now }).1).ObjectMeta.Namespace
        (updateIP_ncluster w.cluster (env.Marshal { LastUpdated := env.Now }).1) = none →
      (Update env w).1 = none ∧
      (issued w (Update env w).2).filter Call.isStoreWrite =
        [ .MachinesUpdate
            (updateIP_nmachine env.VmIpAnnotationKey w.machine vmIP).ObjectMeta.Namespace
            (updateIP_nmachine env.VmIpAnnotationKey w.machine vmIP),
          .ClustersUpdateStatus
            (updateIP_ncluster w.cluster (env.Marshal { LastUpdated := env.Now }).1).ObjectMeta.Namespace
            (updateIP_ncluster w.cluster (env.Marshal { LastUpdated := env.Now }).1) ] ∧
      (issued w (Update env w).2).countP Call.isMachinesUpdate = 1 ∧
      (issued w (Update env w).2).countP Call.isClustersUpdateStatus = 1 := by
  constructor
  · unfold Update
    simp only [hs, hid, hr]
    simp only [hp, ne_eq, not_true_eq_false, if_false, World.emit, hg]
    cases hw : env.WaitForIP s (Update_vmref moref) with
    | error err => simp [issued, Call.isWaitForIP]
    | ok vmIP =>
      simp only [updateIP, World.emit]
      split
      · simp [issued, Call.isWaitForIP]
      · split <;> simp [issued, Call.isWaitForIP]
  · intro vmIP hw hm hc
    unfold Update
    simp only [hs, hid, hr]
    simp only [hp, ne_eq, not_true_eq_false, if_false, World.emit, hg, hw, updateIP, hm]
    have hc2 : env.ClustersUpdateStatus w.clusters
        (updateIP_ncluster w.cluster (env.Marshal { LastUpdated := env.Now }).1).ObjectMeta.Namespace
        (updateIP_ncluster w.cluster (env.Marshal { LastUpdated := env.Now }).1) = none := hc
    simp [hc2, issued, Call.isStoreWrite, Call.isMachinesUpdate, Call.isClustersUpdateStatus]

/-- Witness of C2: the VM is powered on, reports `10.0.0.5`, and the store
accepts both submissions. -/
theorem Update_missing_address_witness :
    (issued exWorld (Update exEnv exWorld).2).countP Call.isWaitForIP = 1 ∧
    (Update exEnv exWorld).1 = none ∧
    (issued exWorld (Update exEnv exWorld).2).filter Call.isStoreWrite =
      [ .MachinesUpdate "default"
          { exMachine with
            ObjectMeta :=
              { exMachine.ObjectMeta with
                Annotations := some [("vm-ip-address", "10.0.0.5")] } },
        .ClustersUpdateStatus "default"
          { exCluster with
            Status :=
              { exCluster.Status with
                ProviderStatus :=
                  some { Raw := "\x7b\"LastUpdated\":\"2018-09-01 10:00:00 +0000 UTC\"\x7d" } } } ] ∧
    (issued exWorld (Update exEnv exWorld).2).countP Call.isMachinesUpdate = 1 ∧
    (issued exWorld (Update exEnv exWorld).2).countP Call.isClustersUpdateStatus = 1 :=
  ⟨(Update_missing_address exEnv exWorld { handle := 1 } "vm-42"
      { Name := "node-1-vm", Runtime := { PowerState := "poweredOn" } }
      { msg := "could not get IP" } rfl rfl rfl rfl rfl).1,
    (Update_missing_address exEnv exWorld { handle := 1 } "vm-42"
      { Name := "node-1-vm", Runtime := { PowerState := "poweredOn" } }
      { msg := "could not get IP" } rfl rfl rfl rfl rfl).2 "10.0.0.5" rfl rfl rfl⟩

/-- C3: a pass that reaches the address check on a Machine for which `GetIP`
succeeds returns nil and issues no `WaitForIP`, no Machine `Update`, no Cluster
`UpdateStatus` and no event; the store is left as it was. -/
theorem Update_address_known (env : Env) (w : World) (s : SessionContext) (moref : String)
    (vmmo : VirtualMachine) (ip : String)
    (hs : env.sessionFromProviderConfig w.cluster w.machine = .ok s)
    (hid : env.GetVMId w.machine = .ok moref)
    (hr : env.RetrieveOne s (Update_vmref moref) ["name", "runtime"] = .ok vmmo)
    (hp : vmmo.Runtime.PowerState = VirtualMachinePowerStatePoweredOn)
    (hg : GetIP env.VmIpAnnotationKey w.cluster w.machine = .ok ip) :
    (Update env w).1 = none ∧
    (issued w (Update env w).2).countP Call.isWaitForIP = 0 ∧
    (issued w (Update env w).2).countP Call.isMachinesUpdate = 0 ∧
    (issued w (Update env w).2).countP Call.isClustersUpdateStatus = 0 ∧
    (issued w (Update env w).2).countP Call.isEventf = 0 ∧
    (Update env w).2.machines = w.machines ∧
    (Update env w).2.clusters = w.clusters := by
  unfold Update
  simp only [hs, hid, hr]
  simp [hp, World.emit, hg, issued, Call.isWaitForIP, Call.isMachinesUpdate,
    Call.isClustersUpdateStatus, Call.isEventf]

/-- Witness of C3: the Machine already carries `10.0.0.9`. -/
theorem Update_address_known_witness :
    (Update exEnv exWorldWithIP).1 = none ∧
    (issued exWorldWithIP (Update exEnv exWorldWithIP).2).countP Call.isWaitForIP = 0 ∧
    (issued exWorldWithIP (Update exEnv exWorldWithIP).2).countP Call.isMachinesUpdate = 0 ∧
    (issued exWorldWithIP (Update exEnv exWorldWithIP).2).countP
      Call.isClustersUpdateStatus = 0 ∧
    (issued exWorldWithIP (Update exEnv exWorldWithIP).2).countP Call.isEventf = 0 ∧
    (Update exEnv exWorldWithIP).2.machines = exWorldWithIP.machines ∧
    (Update exEnv exWorldWithIP).2.clusters = exWorldWithIP.clusters :=
  Update_address_known exEnv exWorldWithIP { handle := 1 } "vm-42"
    { Name := "node-1-vm", Runtime := { PowerState := "poweredOn" } } "10.0.0.9"
    rfl rfl rfl rfl rfl

/-- C7: a pass that reaches the address check on a Machine for which `GetIP`
fails, and whose `WaitForIP` call fails, returns the error of the wait and
issues no Machine `Update`, no Cluster `UpdateStatus` and no event; the store
is left as it was. -/
theorem Update_wait_fails (env : Env) (w : World) (s : SessionContext) (moref : String)
    (vmmo : VirtualMachine) (e err : GoError)
    (hs : env.sessionFromProviderConfig w.cluster w.machine = .ok s)
    (hid : env.GetVMId w.machine = .ok moref)
    (hr : env.RetrieveOne s (Update_vmref moref) ["name", "runtime"] = .ok vmmo)
    (hp : vmmo.Runtime.PowerState = VirtualMachinePowerStatePoweredOn)
    (hg : GetIP env.VmIpAnnotationKey w.cluster w.machine = .error e)
    (hw : env.WaitForIP s (Update_vmref moref) = .error err) :
    (Update env w).1 = some err ∧
    (issued w (Update env w).2).countP Call.isMachinesUpdate = 0 ∧
    (issued w (Update env w).2).countP Call.isClustersUpdateStatus = 0 ∧
    (issued w (Update env w).2).countP Call.isEventf = 0 ∧
    (Update env w).2.machines = w.machines ∧
    (Update env w).2.clusters = w.clusters := by
  unfold Update
  simp only [hs, hid, hr]
  simp [hp, World.emit, hg, hw, issued, Call.isMachinesUpdate,
    Call.isClustersUpdateStatus, Call.isEventf]

/-- Witness of C7: the wait is cancelled. -/
theorem Update_wait_fails_witness :
    (Update exEnvWaitFails exWorld).1 = some { msg := "context canceled" } ∧
    (issued exWorld (Update exEnvWaitFails exWorld).2).countP Call.isMachinesUpdate = 0 ∧
    (issued exWorld (Update exEnvWaitFails exWorld).2).countP
      Call.isClustersUpdateStatus = 0 ∧
    (issued exWorld (Update exEnvWaitFails exWorld).2).countP Call.isEventf = 0 ∧
    (Update exEnvWaitFails exWorld).2.machines = exWorld.machines ∧
    (Update exEnvWaitFails exWorld).2.clusters = exWorld.clusters :=
  Update_wait_fails exEnvWaitFails exWorld { handle := 1 } "vm-42"
    { Name := "node-1-vm", Runtime := { PowerState := "poweredOn" } }
    { msg := "could not get IP" } { msg := "context canceled" } rfl rfl rfl rfl rfl rfl

/-- C4: on a Machine that already carries the address annotation, whatever the
collaborators answer, the pass issues no Machine `Update`: the store holds the
same Machines after the pass as before, so every stored address annotation
reads the same, and the Machine handed in is not modified. -/
theorem Update_idempotent_once_present (env : Env) (w : World) (ip : String)
    (h : annotationsGet w.machine.ObjectMeta.Annotations env.VmIpAnnotationKey = some ip) :
    (issued w (Update env w).2).countP Call.isMachinesUpdate = 0 ∧
    (Update env w).2.machines = w.machines ∧
    (∀ ns name : String,
      (readMachine (Update env w).2.machines ns name).map
          (fun m => annotationsGet m.ObjectMeta.Annotations env.VmIpAnnotationKey) =
        (readMachine w.machines ns name).map
          (fun m => annotationsGet m.ObjectMeta.Annotations env.VmIpAnnotationKey)) ∧
    (Update env w).2.machine = w.machine := by
  have hg := (GetIP_ok_iff env.VmIpAnnotationKey w.cluster w.machine ip).2 h
  have key : (issued w (Update env w).2).countP Call.isMachinesUpdate = 0 ∧
      (Update env w).2.machines = w.machines ∧ (Update env w).2.machine = w.machine := by
    unfold Update
    cases hs : env.sessionFromProviderConfig w.cluster w.machine with
    | error err => simp [issued]
    | ok s =>
      cases hid : env.GetVMId w.machine with
      | error err => simp [issued]
      | ok moref =>
        cases hr : env.RetrieveOne s (Update_vmref moref) ["name", "runtime"] with
        | error err => simp [hr, issued, World.emit, Call.isMachinesUpdate]
        | ok vmmo =>
          by_cases hp : vmmo.Runtime.PowerState = VirtualMachinePowerStatePoweredOn
          · simp [hr, hp, World.emit, hg, issued, Call.isMachinesUpdate]
          · simp [hr, hp, World.emit, issued, Call.isMachinesUpdate]
  refine ⟨key.1, key.2.1, ?_, key.2.2⟩
  intro ns name
  rw [key.2.1]

/-- Witness of C4: the Machine carries `10.0.0.9` while the hypervisor would
report `10.0.0.5`. -/
theorem Update_idempotent_once_present_witness :
    (issued exWorldWithIP (Update exEnv exWorldWithIP).2).countP Call.isMachinesUpdate = 0 ∧
    (Update exEnv exWorldWithIP).2.machines = exWorldWithIP.machines ∧
    (∀ ns name : String,
      (readMachine (Update exEnv exWorldWithIP).2.machines ns name).map
          (fun m => annotationsGet m.ObjectMeta.Annotations exEnv.VmIpAnnotationKey) =
        (readMachine exWorldWithIP.machines ns name).map
          (fun m => annotationsGet m.ObjectMeta.Annotations exEnv.VmIpAnnotationKey)) ∧
    (Update exEnv exWorldWithIP).2.machine = exWorldWithIP.machine :=
  Update_idempotent_once_present exEnv exWorldWithIP "10.0.0.9" rfl

/-- C5: when the store rejects the Machine submission of `updateIP`, `updateIP`
returns that error and the Machine `Update` is the only store write it
issues: no Cluster `UpdateStatus` is issued and the store is left as it was.
Conversely, whenever a Cluster `UpdateStatus` is issued, the Machine submission
was accepted and the calls of `updateIP` are the Machine `Update` followed by
that `UpdateStatus`. -/
theorem updateIP_machine_rejected (env : Env) (w : World) (vmIP : String) :
    (∀ err : GoError,
      env.MachinesUpdate w.machines
        (updateIP_nmachine env.VmIpAnnotationKey w.machine vmIP).ObjectMeta.Namespace
        (updateIP_nmachine env.VmIpAnnotationKey w.machine vmIP) = some err →
      (updateIP env w vmIP).1 = some err ∧
      (issued w (updateIP env w vmIP).2).countP Call.isClustersUpdateStatus = 0 ∧
      (issued w (updateIP env w vmIP).2).countP Call.isMachinesUpdate = 1 ∧
      (updateIP env w vmIP).2.clusters = w.clusters ∧
      (updateIP env w vmIP).2.machines = w.machines) ∧
    (∀ c ∈ issued w (updateIP env w vmIP).2, c.isClustersUpdateStatus = true →
      env.MachinesUpdate w.machines
        (updateIP_nmachine env.VmIpAnnotationKey w.machine vmIP).ObjectMeta.Namespace
        (updateIP_nmachine env.VmIpAnnotationKey w.machine vmIP) = none ∧
      issued w (updateIP env w vmIP).2 =
        [ .MachinesUpdate
            (updateIP_nmachine env.VmIpAnnotationKey w.machine vmIP).ObjectMeta.Namespace
            (updateIP_nmachine env.VmIpAnnotationKey w.machine vmIP),
          c ]) := by
  constructor
  · intro err hm
    unfold updateIP
    simp [World.emit, hm, issued, Call.isClustersUpdateStatus, Call.isMachinesUpdate]
  · intro c hc hk
    cases hm : env.MachinesUpdate w.machines
        (updateIP_nmachine env.VmIpAnnotationKey w.machine vmIP).ObjectMeta.Namespace
        (updateIP_nmachine env.VmIpAnnotationKey w.machine vmIP) with
    | some err =>
      have hw : issued w (updateIP env w vmIP).2 =
          [ .MachinesUpdate
              (updateIP_nmachine env.VmIpAnnotationKey w.machine vmIP).ObjectMeta.Namespace
              (updateIP_nmachine env.VmIpAnnotationKey w.machine vmIP) ] := by
        unfold updateIP
        simp [World.emit, hm, issued]
      rw [hw] at hc
      simp only [List.mem_singleton] at hc
      subst hc
      simp [Call.isClustersUpdateStatus] at hk
    | none =>
      have hw : issued w (updateIP env w vmIP).2 =
          [ .MachinesUpdate
              (updateIP_nmachine env.VmIpAnnotationKey w.machine vmIP).ObjectMeta.Namespace
              (updateIP_nmachine env.VmIpAnnotationKey w.machine vmIP),
            .ClustersUpdateStatus
              (updateIP_ncluster w.cluster
                (env.Marshal { LastUpdated := env.Now }).1).ObjectMeta.Namespace
              (updateIP_ncluster w.cluster (env.Marshal { LastUpdated := env.Now }).1) ] := by
        unfold updateIP
        simp only [World.emit, hm]
        split <;> simp [issued]
      rw [hw] at hc ⊢
      simp only [List.mem_cons, List.mem_singleton, List.not_mem_nil, or_false] at hc
      rcases hc with hc | hc
      · subst hc
        simp [Call.isClustersUpdateStatus] at hk
      · subst hc
        exact ⟨rfl, rfl⟩

/-- Witness of C5: the store answers the Machine submission with a conflict;
and in a run where the store accepts both submissions the Cluster
`UpdateStatus` comes second. -/
theorem updateIP_machine_rejected_witness :
    ((updateIP exEnvMachineRejected exWorld "10.0.0.5").1 = some { msg := "conflict" } ∧
      (issued exWorld (updateIP exEnvMachineRejected exWorld "10.0.0.5").2).countP
        Call.isClustersUpdateStatus = 0 ∧
      (issued exWorld (updateIP exEnvMachineRejected exWorld "10.0.0.5").2).countP
        Call.isMachinesUpdate = 1 ∧
      (updateIP exEnvMachineRejected exWorld "10.0.0.5").2.clusters = exWorld.clusters ∧
      (updateIP exEnvMachineRejected exWorld "10.0.0.5").2.machines = exWorld.machines) ∧
    (exEnv.MachinesUpdate exWorld.machines
        (updateIP_nmachine exEnv.VmIpAnnotationKey exWorld.machine "10.0.0.5").ObjectMeta.Namespace
        (updateIP_nmachine exEnv.VmIpAnnotationKey exWorld.machine "10.0.0.5") = none ∧
      issued exWorld (updateIP exEnv exWorld "10.0.0.5").2 =
        [ .MachinesUpdate
            (updateIP_nmachine exEnv.VmIpAnnotationKey exWorld.machine "10.0.0.5").ObjectMeta.Namespace
            (updateIP_nmachine exEnv.VmIpAnnotationKey exWorld.machine "10.0.0.5"),
          .ClustersUpdateStatus "default"
            (updateIP_ncluster exCluster
              "\x7b\"LastUpdated\":\"2018-09-01 10:00:00 +0000 UTC\"\x7d") ]) :=
  ⟨(updateIP_machine_rejected exEnvMachineRejected exWorld "10.0.0.5").1
      { msg := "conflict" } rfl,
    (updateIP_machine_rejected exEnv exWorld "10.0.0.5").2
      (.ClustersUpdateStatus "default"
        (updateIP_ncluster exCluster
          "\x7b\"LastUpdated\":\"2018-09-01 10:00:00 +0000 UTC\"\x7d"))
      (List.mem_cons_of_mem _ (List.mem_singleton.2 rfl))
      rfl⟩

/-- C6: in a pass where the wait yields `vmIP`, the store accepts the Machine
submission and rejects the Cluster status submission, `Update` returns the
rejection, the store writes of the pass are that one Machine `Update` followed
by the Cluster `UpdateStatus` (no second Machine write), and a read of the
Machine from the store shows the address annotation set to `vmIP`. -/
theorem Update_cluster_write_rejected (env : Env) (w : World) (s : SessionContext)
    (moref : String) (vmmo : VirtualMachine) (e err : GoError) (vmIP : String)
    (hs : env.sessionFromProviderConfig w.cluster w.machine = .ok s)
    (hid : env.GetVMId w.machine = .ok moref)
    (hr : env.RetrieveOne s (Update_vmref moref) ["name", "runtime"] = .ok vmmo)
    (hp : vmmo.Runtime.PowerState = VirtualMachinePowerStatePoweredOn)
    (hg : GetIP env.VmIpAnnotationKey w.cluster w.machine = .error e)
    (hw : env.WaitForIP s (Update_vmref moref) = .ok vmIP)
    (hm : env.MachinesUpdate w.machines
      (updateIP_nmachine env.VmIpAnnotationKey w.machine vmIP).ObjectMeta.Namespace
      (updateIP_nmachine env.VmIpAnnotationKey w.machine vmIP) = none)
    (hc : env.ClustersUpdateStatus w.clusters
      (updateIP_ncluster w.cluster (env.Marshal { LastUpdated := env.Now }).1).ObjectMeta.Namespace
      (updateIP_ncluster w.cluster (env.Marshal { LastUpdated := env.Now }).1) = some err) :
    (Update env w).1 = some err ∧
    (issued w (Update env w).2).filter Call.isStoreWrite =
      [ .MachinesUpdate
          (updateIP_nmachine env.VmIpAnnotationKey w.machine vmIP).ObjectMeta.Namespace
          (updateIP_nmachine env.VmIpAnnotationKey w.machine vmIP),
        .ClustersUpdateStatus
          (updateIP_ncluster w.cluster (env.Marshal { LastUpdated := env.Now }).1).ObjectMeta.Namespace
          (updateIP_ncluster w.cluster (env.Marshal { LastUpdated := env.Now }).1) ] ∧
    (issued w (Update env w).2).countP Call.isMachinesUpdate = 1 ∧
    ∃ m : Machine,
      readMachine (Update env w).2.machines w.machine.ObjectMeta.Namespace
        w.machine.ObjectMeta.Name = some m ∧
      annotationsGet m.ObjectMeta.Annotations env.VmIpAnnotationKey = some vmIP := by
  have hc2 : env.ClustersUpdateStatus w.clusters
      (updateIP_ncluster w.cluster (env.Marshal { LastUpdated := env.Now }).1).ObjectMeta.Namespace
      (updateIP_ncluster w.cluster (env.Marshal { LastUpdated := env.Now }).1) = some err := hc
  have hU : Update env w = (some err,
      { w with
        machines := replaceMachine w.machines
          (updateIP_nmachine env.VmIpAnnotationKey w.machine vmIP).ObjectMeta.Namespace
          (updateIP_nmachine env.VmIpAnnotationKey w.machine vmIP)
        trace := w.trace ++
          [ .RetrieveOne (Update_vmref moref) ["name", "runtime"],
            .WaitForIP (Update_vmref moref),
            .Eventf w.machine "Normal" "IP Detcted" "IP %s detected for Virtual Machine %s" vmIP,
            .MachinesUpdate
              (updateIP_nmachine env.VmIpAnnotationKey w.machine vmIP).ObjectMeta.Namespace
              (updateIP_nmachine env.VmIpAnnotationKey w.machine vmIP),
            .ClustersUpdateStatus
              (updateIP_ncluster w.cluster
                (env.Marshal { LastUpdated := env.Now }).1).ObjectMeta.Namespace
              (updateIP_ncluster w.cluster (env.Marshal { LastUpdated := env.Now }).1) ] }) := by
    unfold Update
    simp only [hs, hid, hr]
    simp only [hp, ne_eq, not_true_eq_false, if_false, World.emit, hg, hw, updateIP, hm]
    simp [hc2]
  rw [hU]
  refine ⟨rfl, ?_, ?_, updateIP_nmachine env.VmIpAnnotationKey w.machine vmIP, ?_, ?_⟩
  · simp [issued, Call.isStoreWrite, Call.isMachinesUpdate, Call.isClustersUpdateStatus]
  · simp [issued, Call.isMachinesUpdate]
  · exact readMachine_replaceMachine w.machines _ _
  · simp only [updateIP_nmachine, annotationsGet]
    exact GoMap.get_set_self _ _ _

/-- Witness of C6: the store accepts the Machine and answers the Cluster status
submission with a conflict. -/
theorem Update_cluster_write_rejected_witness :
    (Update exEnvClusterRejected exWorld).1 = some { msg := "conflict" } ∧
    (issued exWorld (Update exEnvClusterRejected exWorld).2).filter Call.isStoreWrite =
      [ .MachinesUpdate "default"
          { exMachine with
            ObjectMeta :=
              { exMachine.ObjectMeta with
                Annotations := some [("vm-ip-address", "10.0.0.5")] } },
        .ClustersUpdateStatus "default"
          { exCluster with
            Status :=
              { exCluster.Status with
                ProviderStatus :=
                  some { Raw := "\x7b\"LastUpdated\":\"2018-09-01 10:00:00 +0000 UTC\"\x7d" } } } ] ∧
    (issued exWorld (Update exEnvClusterRejected exWorld).2).countP Call.isMachinesUpdate = 1 ∧
    ∃ m : Machine,
      readMachine (Update exEnvClusterRejected exWorld).2.machines "default" "node-1" = some m ∧
      annotationsGet m.ObjectMeta.Annotations "vm-ip-address" = some "10.0.0.5" :=
  Update_cluster_write_rejected exEnvClusterRejected exWorld { handle := 1 } "vm-42"
    { Name := "node-1-vm", Runtime := { PowerState := "poweredOn" } }
    { msg := "could not get IP" } { msg := "conflict" } "10.0.0.5"
    rfl rfl rfl rfl rfl rfl rfl rfl

/-- C8, behaviour of the code: with the session and the VM id obtained and
`RetrieveOne` failing, `Update` returns nil, not the failure. -/
theorem Update_retrieve_failure_returns_nil :
    exEnvRetrieveFails.sessionFromProviderConfig exWorld.cluster exWorld.machine =
      .ok { handle := 1 } ∧
    exEnvRetrieveFails.GetVMId exWorld.machine = .ok "vm-42" ∧
    exEnvRetrieveFails.RetrieveOne { handle := 1 } (Update_vmref "vm-42") ["name", "runtime"] =
      .error { msg := "connection refused" } ∧
    (Update exEnvRetrieveFails exWorld).1 = none :=
  ⟨rfl, rfl, rfl, rfl⟩

/-- C10: `updateIP` submits exactly one Machine, under the namespace of the
input Machine; the submitted Machine maps the well-known key to `vmIP`, agrees
with the input on every other annotation key and on every other field, has
the singleton map when the input map is nil; and the input Machine is left
unchanged. -/
theorem updateIP_submitted_machine (env : Env) (w : World) (vmIP : String) :
    ∃ nm : Machine,
      (issued w (updateIP env w vmIP).2).filter Call.isMachinesUpdate =
        [.MachinesUpdate w.machine.ObjectMeta.Namespace nm] ∧
      annotationsGet nm.ObjectMeta.Annotations env.VmIpAnnotationKey = some vmIP ∧
      (∀ k : String, k ≠ env.VmIpAnnotationKey →
        annotationsGet nm.ObjectMeta.Annotations k =
          annotationsGet w.machine.ObjectMeta.Annotations k) ∧
      ({ nm with
          ObjectMeta :=
            { nm.ObjectMeta with Annotations := w.machine.ObjectMeta.Annotations } } : Machine) =
        w.machine ∧
      (w.machine.ObjectMeta.Annotations = none →
        nm.ObjectMeta.Annotations = some [(env.VmIpAnnotationKey, vmIP)]) ∧
      (updateIP env w vmIP).2.machine = w.machine := by
  refine ⟨updateIP_nmachine env.VmIpAnnotationKey w.machine vmIP, ?_, ?_, ?_, ?_, ?_, ?_⟩
  · unfold updateIP
    simp only [World.emit]
    split
    · simp [issued, Call.isMachinesUpdate, updateIP_nmachine]
    · split <;> simp [issued, Call.isMachinesUpdate, updateIP_nmachine]
  · simp only [updateIP_nmachine, annotationsGet]
    exact GoMap.get_set_self _ _ _
  · intro k hk
    simp only [updateIP_nmachine, annotationsGet]
    cases w.machine.ObjectMeta.Annotations with
    | none => simpa [GoMap.get] using GoMap.get_set_other [] env.VmIpAnnotationKey vmIP k hk
    | some m => exact GoMap.get_set_other m env.VmIpAnnotationKey vmIP k hk
  · simp [updateIP_nmachine]
  · intro hnil
    simp [updateIP_nmachine, hnil, GoMap.set]
  · unfold updateIP
    simp only [World.emit]
    split
    · rfl
    · split <;> rfl

/-- Witness of C10: a Machine that carries another annotation and an older
address, and a Machine whose annotation map is nil. -/
theorem updateIP_submitted_machine_witness :
    (∃ nm : Machine,
      (issued exWorldWithIP (updateIP exEnv exWorldWithIP "10.0.0.5").2).filter
          Call.isMachinesUpdate = [.MachinesUpdate "default" nm] ∧
      annotationsGet nm.ObjectMeta.Annotations "vm-ip-address" = some "10.0.0.5" ∧
      annotationsGet nm.ObjectMeta.Annotations "owner" = some "ops" ∧
      ({ nm with
          ObjectMeta :=
            { nm.ObjectMeta with
              Annotations := exMachineWithIP.ObjectMeta.Annotations } } : Machine) =
        exMachineWithIP ∧
      (updateIP exEnv exWorldWithIP "10.0.0.5").2.machine = exMachineWithIP) ∧
    (∃ nm : Machine,
      (issued exWorld (updateIP exEnv exWorld "10.0.0.5").2).filter
          Call.isMachinesUpdate = [.MachinesUpdate "default" nm] ∧
      nm.ObjectMeta.Annotations = some [("vm-ip-address", "10.0.0.5")] ∧
      (updateIP exEnv exWorld "10.0.0.5").2.machine = exMachine) := by
  constructor
  · obtain ⟨nm, h1, h2, h3, h4, _, h6⟩ := updateIP_submitted_machine exEnv exWorldWithIP "10.0.0.5"
    exact ⟨nm, h1, h2, (h3 "owner" (by decide)).trans rfl, h4, h6⟩
  · obtain ⟨nm, h1, _, _, _, h5, h6⟩ := updateIP_submitted_machine exEnv exWorld "10.0.0.5"
    exact ⟨nm, h1, h5 rfl, h6⟩

end Govmomi
